import Mathlib

/-!
# Verification of the aimock OpenAI mock server (`main.go`)

Shallow embedding of the mock response engine of `main.go`:

* the seeded deterministic embedding generator `generateMockEmbedding`
  (seed folding, raw draws, normalization),
* the chat-completions and embeddings HTTP handlers (model validation,
  default substitution, usage accounting),
* the latency-simulation middleware.

Modelling conventions:

* Go `float64` values are modelled as exact rationals (every finite IEEE-754
  double is a rational); the special value NaN and the infinities, which Go
  produces on division by zero, are modelled by the `GoFloat` type.
  Floating-point rounding of `+`, `*`, `/` is idealized as exact rational
  arithmetic.
* Go's `math/rand` generator (`rand.New(rand.NewSource(seed))`) lives in the
  Go standard library, outside this repository.  It is modelled abstractly as
  a pure stream `stream : Int → Nat → ℚ`, mapping a seed and a draw index to
  the value of the corresponding `Float64()` call; every theorem quantifies
  over the stream, so the results hold for the pinned algorithm in particular.
* Go `time.Duration` is an `int64` count of nanoseconds, modelled as `Int`.
* Go `len(s)` of a string counts UTF-8 bytes, modelled via `Char.utf8Size`.
-/

/-- Model of a Go `float64` as produced by the embedding pipeline: either an
exact finite rational, NaN, or a signed infinity. -/
inductive GoFloat where
  | nan : GoFloat
  | pinf : GoFloat
  | ninf : GoFloat
  | finite : ℚ → GoFloat
deriving DecidableEq, Repr

/-- IEEE-754 division on `GoFloat` (the cases the pipeline can reach):
`0/0 = NaN`, `x/0 = ±∞` for finite `x ≠ 0`, and exact rational division
otherwise.  NaN propagates. -/
def fdiv : GoFloat → GoFloat → GoFloat
  | GoFloat.nan, _ => GoFloat.nan
  | _, GoFloat.nan => GoFloat.nan
  | GoFloat.finite a, GoFloat.finite b =>
      if b = 0 then
        if a = 0 then GoFloat.nan
        else if 0 < a then GoFloat.pinf else GoFloat.ninf
      else GoFloat.finite (a / b)
  | GoFloat.finite _, GoFloat.pinf => GoFloat.finite 0
  | GoFloat.finite _, GoFloat.ninf => GoFloat.finite 0
  | GoFloat.pinf, GoFloat.finite b => if 0 ≤ b then GoFloat.pinf else GoFloat.ninf
  | GoFloat.ninf, GoFloat.finite b => if 0 ≤ b then GoFloat.ninf else GoFloat.pinf
  | GoFloat.pinf, GoFloat.pinf => GoFloat.nan
  | GoFloat.pinf, GoFloat.ninf => GoFloat.nan
  | GoFloat.ninf, GoFloat.pinf => GoFloat.nan
  | GoFloat.ninf, GoFloat.ninf => GoFloat.nan

/-- Model of `math.Sqrt` on the exact-rational idealization: exact on
rationals that are squares of rationals — `ratSqrt 0 = 0`, and
`ratSqrt (m * m) = m` for `0 < m` (proved below) — which are the only inputs
the theorems of this development evaluate it at.  (On other inputs Go rounds
to the nearest double, which an exact-rational model cannot represent; there
this definition yields the floor-based approximation
`Nat.sqrt num / Nat.sqrt den`.) -/
def ratSqrt (q : ℚ) : ℚ :=
  (Nat.sqrt q.num.toNat : ℚ) / (Nat.sqrt q.den : ℚ)

/-- Two's-complement wraparound of an integer into a signed 64-bit value,
modelling Go's `int64` overflow semantics. -/
def wrap64 (n : Int) : Int := (n + 2 ^ 63) % 2 ^ 64 - 2 ^ 63

/-- Seed derivation of `generateMockEmbedding` (main.go lines 458–461):
`seed := 0; for _, c := range input { seed = seed*31 + int64(c) }`,
folding the Unicode codepoints left to right in a wrapping `int64`. -/
def stringSeed (s : String) : Int :=
  s.data.foldl (fun seed c => wrap64 (seed * 31 + (c.toNat : Int))) 0

/-- The raw drawn vector (main.go lines 465–468): `dimensions` draws of
`r.Float64()*2 - 1` from the generator seeded with `seed`; the `i`-th
`Float64()` value is `stream seed i`. -/
def rawEmbedding (stream : Int → Nat → ℚ) (seed : Int) (dims : Nat) : List ℚ :=
  (List.range dims).map (fun i => stream seed i * 2 - 1)

/-- Sum of squares of a vector (main.go lines 471–474):
`sum := 0.0; for _, v := range embedding { sum += v * v }`. -/
def sumSquares (v : List ℚ) : ℚ :=
  v.foldl (fun sum x => sum + x * x) 0

/-- The embedding pipeline from the seed onward (main.go lines 462–480):
draw the raw vector, compute `magnitude := math.Sqrt(sum)`, then divide
every component by the magnitude — unconditionally, with no zero check. -/
def embedFromSeed (stream : Int → Nat → ℚ) (seed : Int) (dims : Nat) :
    List GoFloat :=
  let embedding := rawEmbedding stream seed dims
  let sum := sumSquares embedding
  let magnitude := ratSqrt sum
  embedding.map (fun v => fdiv (GoFloat.finite v) (GoFloat.finite magnitude))

/-- `generateMockEmbedding` (main.go lines 456–481): fold the input string
into a seed, then run the seeded pipeline.  The PRNG stream is the abstract
model of `rand.New(rand.NewSource(seed))`. -/
def generateMockEmbedding (stream : Int → Nat → ℚ) (input : String)
    (dims : Nat) : List GoFloat :=
  embedFromSeed stream (stringSeed input) dims

/-- A concrete PRNG stream whose every `Float64()` draw is `1/2`, so every
raw component `2*u - 1` is exactly `0`; used to exercise the all-zero
edge case. -/
def halfStream : Int → Nat → ℚ := fun _ _ => (1 : ℚ) / 2

/-- Go `len` of a string: the number of bytes of its UTF-8 encoding. -/
def goStrLen (s : String) : Nat :=
  s.data.foldl (fun n c => n + c.utf8Size) 0

/-- The two configured model lists (main.go `Models`). -/
structure Models where
  embedding : List String
  chat : List String
deriving DecidableEq, Repr

/-- The resolved server configuration (main.go `Config`); latencies are
`time.Duration`, i.e. `int64` nanosecond counts. -/
structure Config where
  port : Int
  minLatency : Int
  maxLatency : Int
  models : Models
deriving DecidableEq, Repr

/-- One chat message (main.go `ChatCompletionMessage`). -/
structure ChatCompletionMessage where
  role : String
  content : String
deriving DecidableEq, Repr

/-- A decoded chat request (main.go `ChatCompletionRequest`).  `messages`
is a Go slice: `none` models the nil slice (field absent or null in the
JSON body, or an unparseable body), `some []` models an explicitly empty
list. -/
structure ChatRequest where
  model : String
  messages : Option (List ChatCompletionMessage)
deriving DecidableEq, Repr

/-- One choice of a chat response. -/
structure ChatChoice where
  index : Nat
  message : ChatCompletionMessage
  finishReason : String
deriving DecidableEq, Repr

/-- Usage block of a chat response. -/
structure ChatUsage where
  promptTokens : Nat
  completionTokens : Nat
  totalTokens : Nat
deriving DecidableEq, Repr

/-- A chat completion response (main.go `ChatCompletionResponse`). -/
structure ChatCompletionResponse where
  id : String
  object : String
  created : Int
  model : String
  choices : List ChatChoice
  usage : ChatUsage
deriving DecidableEq, Repr

/-- A decoded embeddings request (main.go `EmbeddingRequest`); `none`
models the nil `input` slice, `some []` an explicitly empty list. -/
structure EmbeddingRequest where
  model : String
  input : Option (List String)
deriving DecidableEq, Repr

/-- One entry of the embeddings response `data` list. -/
structure EmbeddingData where
  object : String
  embedding : List GoFloat
  index : Nat
deriving DecidableEq, Repr

/-- Usage block of an embeddings response. -/
structure EmbeddingUsage where
  promptTokens : Nat
  totalTokens : Nat
deriving DecidableEq, Repr

/-- An embeddings response (main.go `EmbeddingResponse`). -/
structure EmbeddingResponse where
  object : String
  data : List EmbeddingData
  model : String
  usage : EmbeddingUsage
deriving DecidableEq, Repr

/-- The structured error body both handlers return on model-validation
failure; `etype` models the JSON key `"type"`. -/
structure ErrorInfo where
  message : String
  etype : String
  param : String
  code : String
deriving DecidableEq, Repr

/-- Outcome of a handler: `c.JSON(status, body)` with either an error body
(HTTP 400) or a success body (HTTP 200). -/
inductive HandlerReply (ρ : Type) where
  | error (status : Nat) (e : ErrorInfo)
  | ok (status : Nat) (r : ρ)
deriving DecidableEq, Repr

/-- The error body of main.go lines 250–257 / 327–334, carrying the
offending model name. -/
def modelNotFoundError (m : String) : ErrorInfo :=
  { message := "The model \x27" ++ m ++ "\x27 does not exist"
    etype := "invalid_request_error"
    param := "model"
    code := "model_not_found" }

/-- `calculateTokens` (main.go lines 447–453):
`tokens := 0; for _, msg := range messages { tokens += len(msg.Content) / 4 }`. -/
def calculateTokens (messages : List ChatCompletionMessage) : Nat :=
  messages.foldl (fun tokens msg => tokens + goStrLen msg.content / 4) 0

/-- The effective message list of a chat request (main.go lines 267–274):
a nil `messages` slice is replaced by the single synthesized message
`{role: "user", content: "Hello"}`; a non-nil slice (even empty) is kept. -/
def effectiveMessages (req : ChatRequest) : List ChatCompletionMessage :=
  req.messages.getD [{ role := "user", content := "Hello" }]

/-- The effective model of a chat request (main.go lines 262–264): an empty
requested model is replaced by the first configured chat model when the
list is non-empty. -/
def effectiveChatModel (cfg : Config) (req : ChatRequest) : String :=
  if req.model = "" ∧ cfg.models.chat ≠ [] then cfg.models.chat.headI
  else req.model

/-- The canned assistant reply of main.go line 291. -/
def mockChatContent : String :=
  "This is a mock response from the OpenAI API emulator. Your request has been processed successfully."

/-- `handleChatCompletions` (main.go lines 233–308).  `rid` is the
random 29-character suffix produced by `randomID(29)` from the process
global generator, and `now` the value of `time.Now().Unix()`; both are
ambient inputs of the handler. -/
def handleChatCompletions (cfg : Config) (rid : String) (now : Int)
    (req : ChatRequest) : HandlerReply ChatCompletionResponse :=
  if req.model ∉ cfg.models.chat ∧ req.model ≠ "" then
    HandlerReply.error 400 (modelNotFoundError req.model)
  else
    let msgs := effectiveMessages req
    HandlerReply.ok 200
      { id := "chatcmpl-" ++ rid
        object := "chat.completion"
        created := now
        model := effectiveChatModel cfg req
        choices := [{ index := 0
                      message := { role := "assistant", content := mockChatContent }
                      finishReason := "stop" }]
        usage := { promptTokens := calculateTokens msgs
                   completionTokens := 20
                   totalTokens := calculateTokens msgs + 20 } }

/-- The effective input list of an embeddings request (main.go lines
344–346): a nil `input` slice is replaced by the single synthesized string
`"Default input text"`; a non-nil slice (even empty) is kept. -/
def effectiveInputs (req : EmbeddingRequest) : List String :=
  req.input.getD ["Default input text"]

/-- The effective model of an embeddings request (main.go lines 339–341). -/
def effectiveEmbeddingModel (cfg : Config) (req : EmbeddingRequest) : String :=
  if req.model = "" ∧ cfg.models.embedding ≠ [] then cfg.models.embedding.headI
  else req.model

/-- The `data` list built by the loop of main.go lines 367–379: entry `i`
carries `generateMockEmbedding(input[i], 1536)` and index `i`. -/
def embeddingsData (stream : Int → Nat → ℚ) (inputs : List String) :
    List EmbeddingData :=
  inputs.enum.map (fun p =>
    { object := "embedding"
      embedding := generateMockEmbedding stream p.2 1536
      index := p.1 })

/-- The token count accumulated by the loop of main.go lines 381–384:
`len(input) / 4` per input, added to both usage fields. -/
def embeddingsTokens (inputs : List String) : Nat :=
  inputs.foldl (fun tokens s => tokens + goStrLen s / 4) 0

/-- `handleEmbeddings` (main.go lines 310–388). -/
def handleEmbeddings (stream : Int → Nat → ℚ) (cfg : Config)
    (req : EmbeddingRequest) : HandlerReply EmbeddingResponse :=
  if req.model ∉ cfg.models.embedding ∧ req.model ≠ "" then
    HandlerReply.error 400 (modelNotFoundError req.model)
  else
    let inputs := effectiveInputs req
    HandlerReply.ok 200
      { object := "list"
        data := embeddingsData stream inputs
        model := effectiveEmbeddingModel cfg req
        usage := { promptTokens := embeddingsTokens inputs
                   totalTokens := embeddingsTokens inputs } }

/-- `simulateLatencyMiddleware` (main.go lines 100–112): the injected
delay, in nanoseconds, as a function of the configured bounds and of the
`rand.Float64()` draw `u`.  When `min ≤ 0` no `time.Sleep` call happens, so
the delay is `0`; the conversion `time.Duration(float64(max-min)*u)`
truncates toward zero (`⌊·⌋` on the nonnegative product). -/
def simulateLatency (min max : Int) (u : ℚ) : Int :=
  if 0 < min then
    if max > min then min + ⌊((max - min : Int) : ℚ) * u⌋
    else min
  else 0

/-- The built-in default configuration (main.go lines 38–47), used when no
config file loads. -/
def defaultConfig : Config :=
  { port := 8080
    minLatency := 0
    maxLatency := 0
    models := { embedding := ["text-embedding-ada-002"]
                chat := ["gpt-3.5-turbo", "gpt-4"] } }

/-- A call to `generateMockEmbedding` in a running process, with the
process-global `math/rand` state threaded explicitly: the function builds
its own local generator `r := rand.New(rand.NewSource(seed))` (main.go line
462) and never reads or writes the global state, which is therefore
returned unchanged and cannot influence the result. -/
def generateMockEmbeddingCall (globalRand : Nat) (stream : Int → Nat → ℚ)
    (input : String) (dims : Nat) : List GoFloat × Nat :=
  (generateMockEmbedding stream input dims, globalRand)

/-- The spec's description of the seed step, for comparison with `wrap64`:
`(seed*31 + codepoint(c)) mod 2^64` reinterpreted as a signed 64-bit value. -/
def toSigned64 (n : Int) : Int :=
  if n % 2 ^ 64 < 2 ^ 63 then n % 2 ^ 64 else n % 2 ^ 64 - 2 ^ 64

/-- Seed fold written exactly as the spec words it (§4.4 item 1): start at
0 and, left to right, take `(seed*31 + codepoint(c)) mod 2^64` interpreted
as a signed 64-bit integer. -/
def specSeedFold (s : String) : Int :=
  s.data.foldl (fun seed c => toSigned64 ((seed * 31 + (c.toNat : Int)) % 2 ^ 64)) 0

/-! ## Helper lemmas -/

lemma wrap64_eq_toSigned64 (x : Int) : wrap64 x = toSigned64 (x % 2 ^ 64) := by
  unfold wrap64 toSigned64
  omega

lemma foldl_add_sum {α M : Type*} [AddMonoid M] (f : α → M) :
    ∀ (l : List α) (acc : M),
      l.foldl (fun a x => a + f x) acc = acc + (l.map f).sum := by
  intro l
  induction l with
  | nil => simp
  | cons x xs ih =>
    intro acc
    simp only [List.foldl_cons, List.map_cons, List.sum_cons, ih, add_assoc]

lemma sumSquares_eq_sum (v : List ℚ) :
    sumSquares v = (v.map (fun x => x * x)).sum := by
  unfold sumSquares
  rw [foldl_add_sum (fun x => x * x) v 0, zero_add]

lemma sumSquares_map_div (v : List ℚ) (m : ℚ) :
    sumSquares (v.map (fun x => x / m)) = sumSquares v * (m * m)⁻¹ := by
  rw [sumSquares_eq_sum, sumSquares_eq_sum, List.map_map]
  have hfun : ((fun x => x * x) ∘ fun x => x / m) =
      fun x => (x * x) * (m * m)⁻¹ := by
    funext x
    simp only [Function.comp_apply, div_eq_mul_inv, mul_inv]
    ring
  rw [hfun, List.sum_map_mul_right]

lemma ratSqrt_mul_self {m : ℚ} (hm : 0 < m) : ratSqrt (m * m) = m := by
  unfold ratSqrt
  have hnum : (0 : Int) ≤ m.num := le_of_lt (Rat.num_pos.mpr hm)
  rw [Rat.mul_self_num, Rat.mul_self_den]
  obtain ⟨a, ha⟩ := Int.le.dest hnum
  have ha' : m.num = (a : Int) := by omega
  rw [ha']
  have h1 : ((a : Int) * (a : Int)).toNat = a * a := by
    rw [← Int.natCast_mul, Int.toNat_natCast]
  rw [h1, Nat.sqrt_eq, Nat.sqrt_eq]
  have h2 : ((a : ℚ)) = ((m.num : Int) : ℚ) := by rw [ha']; push_cast; ring
  rw [h2, Rat.num_div_den]

lemma ratSqrt_zero : ratSqrt 0 = 0 := by
  simp [ratSqrt]

lemma rawEmbedding_all_zero {stream : Int → Nat → ℚ} {seed : Int} {d : Nat}
    (h : ∀ i, i < d → stream seed i * 2 - 1 = 0) :
    rawEmbedding stream seed d = List.replicate d 0 := by
  unfold rawEmbedding
  apply List.eq_replicate_iff.mpr
  constructor
  · simp
  · intro b hb
    obtain ⟨i, hi, rfl⟩ := List.mem_map.mp hb
    exact h i (List.mem_range.mp hi)

lemma sumSquares_replicate_zero (n : Nat) :
    sumSquares (List.replicate n 0) = 0 := by
  rw [sumSquares_eq_sum, List.map_replicate]
  simp

lemma embedFromSeed_all_zero {stream : Int → Nat → ℚ} {seed : Int} {d : Nat}
    (h : ∀ i, i < d → stream seed i * 2 - 1 = 0) :
    embedFromSeed stream seed d = List.replicate d GoFloat.nan := by
  unfold embedFromSeed
  simp only [rawEmbedding_all_zero h, sumSquares_replicate_zero, ratSqrt_zero,
    List.map_replicate]
  simp [fdiv]

lemma generateMockEmbedding_length (stream : Int → Nat → ℚ) (input : String)
    (dims : Nat) : (generateMockEmbedding stream input dims).length = dims := by
  simp [generateMockEmbedding, embedFromSeed, rawEmbedding]

/-! ## Claim theorems -/

/-- C1 (counterexample): the claim that an all-zero draw yields the
all-zero vector with no NaN is false.  With a PRNG stream whose 1536 draws
are all `1/2` (so every raw component `2*u - 1` is exactly `0`), the code
divides each component by the zero magnitude unconditionally, producing
`0/0 = NaN` in every position — the result contains NaN and is not the
all-zero vector. -/
theorem c1_counterexample :
    (∀ i, i < 1536 → halfStream (stringSeed "") i * 2 - 1 = 0) ∧
    GoFloat.nan ∈ generateMockEmbedding halfStream "" 1536 ∧
    generateMockEmbedding halfStream "" 1536 ≠
      List.replicate 1536 (GoFloat.finite 0) := by
  have hz : ∀ i, i < 1536 → halfStream (stringSeed "") i * 2 - 1 = 0 := by
    intro i _
    norm_num [halfStream]
  have hnan : generateMockEmbedding halfStream "" 1536 =
      List.replicate 1536 GoFloat.nan := embedFromSeed_all_zero hz
  refine ⟨hz, ?_, ?_⟩
  · rw [hnan]
    exact List.mem_replicate.mpr ⟨by norm_num, rfl⟩
  · rw [hnan]
    intro hcontra
    have h0 : (List.replicate 1536 GoFloat.nan)[0]? =
        (List.replicate 1536 (GoFloat.finite 0))[0]? := by rw [hcontra]
    rw [List.getElem?_replicate, List.getElem?_replicate] at h0
    norm_num at h0
    exact GoFloat.noConfusion h0

/-- C1 (amended): whenever every raw drawn component of the vector is
exactly zero, `generateMockEmbedding` divides by the zero Euclidean norm
unconditionally, so every component of the returned vector is NaN (`0/0`)
instead of zero. -/
theorem c1_allZero_nan (stream : Int → Nat → ℚ) (input : String) (dims : Nat)
    (h : ∀ i, i < dims → stream (stringSeed input) i * 2 - 1 = 0) :
    generateMockEmbedding stream input dims =
      List.replicate dims GoFloat.nan :=
  embedFromSeed_all_zero h

/-- C1 (witness for the amended claim): the all-half stream at 1536
dimensions draws all zeros and receives the all-NaN vector. -/
theorem c1_allZero_nan_witness :
    generateMockEmbedding halfStream "" 1536 =
      List.replicate 1536 GoFloat.nan :=
  c1_allZero_nan halfStream "" 1536 (by intro i _; norm_num [halfStream])

/-- C2: the embedding generator is deterministic.  Within the model a call
is a pure function: two calls with the same PRNG algorithm (`stream`),
input and dimensionality return equal vectors whatever the ambient
process-global `math/rand` state (`g1`, `g2`) is; the call leaves that
global state untouched; and the result depends on the input string only
through the folded seed passed to the local generator. -/
theorem c2_deterministic (stream : Int → Nat → ℚ) (input : String)
    (dims : Nat) (g1 g2 : Nat) :
    (generateMockEmbeddingCall g1 stream input dims).1 =
      (generateMockEmbeddingCall g2 stream input dims).1 ∧
    (generateMockEmbeddingCall g1 stream input dims).2 = g1 ∧
    generateMockEmbedding stream input dims =
      embedFromSeed stream (stringSeed input) dims :=
  ⟨rfl, rfl, rfl⟩

/-- C4: the seed is the left-to-right fold `seed = seed*31 + codepoint(c)`
over the input's characters in a wrapping signed 64-bit accumulator —
`stringSeed` (the source's fold with two's-complement wraparound) agrees
with `specSeedFold` (the spec's wording `(seed*31 + c) mod 2^64`
reinterpreted as signed) on every string — and the generator consumes the
input only through this seed, which alone initializes the local PRNG. -/
theorem c4_seed_fold :
    (∀ s : String, stringSeed s = specSeedFold s) ∧
    (∀ (stream : Int → Nat → ℚ) (s : String) (d : Nat),
      generateMockEmbedding stream s d = embedFromSeed stream (stringSeed s) d) := by
  constructor
  · intro s
    unfold stringSeed specSeedFold
    congr 1
    funext seed c
    exact wrap64_eq_toSigned64 _
  · intro _ _ _
    rfl

/-- C9: the embedding depends on the input only through the folded seed:
equal seeds force identical vectors, and the distinct strings "Aa" and
"BB" both fold to seed 2112, hence collide to bit-identical embeddings. -/
theorem c9_seed_collision :
    (∀ (stream : Int → Nat → ℚ) (d : Nat) (s1 s2 : String),
      stringSeed s1 = stringSeed s2 →
      generateMockEmbedding stream s1 d = generateMockEmbedding stream s2 d) ∧
    stringSeed "Aa" = 2112 ∧
    stringSeed "BB" = 2112 ∧
    ("Aa" : String) ≠ "BB" ∧
    (∀ (stream : Int → Nat → ℚ) (d : Nat),
      generateMockEmbedding stream "Aa" d = generateMockEmbedding stream "BB" d) := by
  have hfac : ∀ (stream : Int → Nat → ℚ) (d : Nat) (s1 s2 : String),
      stringSeed s1 = stringSeed s2 →
      generateMockEmbedding stream s1 d = generateMockEmbedding stream s2 d := by
    intro stream d s1 s2 h
    unfold generateMockEmbedding
    rw [h]
  refine ⟨hfac, by decide, by decide, by decide, ?_⟩
  intro stream d
  exact hfac stream d "Aa" "BB" (by decide)

/-- C9 (witness): the seed-equality hypothesis discharged at the concrete
colliding pair "Aa", "BB". -/
theorem c9_seed_collision_witness :
    stringSeed "Aa" = stringSeed "BB" ∧
    generateMockEmbedding halfStream "Aa" 3 =
      generateMockEmbedding halfStream "BB" 3 :=
  ⟨by decide, c9_seed_collision.1 halfStream 3 "Aa" "BB" (by decide)⟩

/-- C3: each raw component is drawn as `2*u - 1` from the uniform draw `u`;
the returned vector is the raw vector with every component divided by the
Euclidean norm; and (in exact arithmetic, i.e. up to floating-point
tolerance) the result has unit Euclidean norm whenever the raw vector is
not all zero — here `m` is the exact square root of the raw sum of
squares, whose positivity excludes the all-zero edge case. -/
theorem c3_unit_norm (stream : Int → Nat → ℚ) (input : String) (dims : Nat)
    (m : ℚ) (hm : 0 < m)
    (hsq : m * m = sumSquares (rawEmbedding stream (stringSeed input) dims)) :
    (∀ i, i < dims →
      (rawEmbedding stream (stringSeed input) dims)[i]? =
        some (2 * stream (stringSeed input) i - 1)) ∧
    generateMockEmbedding stream input dims =
      (rawEmbedding stream (stringSeed input) dims).map
        (fun v => GoFloat.finite (v / m)) ∧
    sumSquares ((rawEmbedding stream (stringSeed input) dims).map
      (fun v => v / m)) = 1 := by
  have hm' : m ≠ 0 := ne_of_gt hm
  refine ⟨?_, ?_, ?_⟩
  · intro i hi
    unfold rawEmbedding
    rw [List.getElem?_map, List.getElem?_range hi]
    simp [mul_comm]
  · have hunfold : generateMockEmbedding stream input dims =
        (rawEmbedding stream (stringSeed input) dims).map
          (fun v => fdiv (GoFloat.finite v) (GoFloat.finite
            (ratSqrt (sumSquares (rawEmbedding stream (stringSeed input) dims))))) :=
      rfl
    rw [hunfold, ← hsq, ratSqrt_mul_self hm]
    apply List.map_congr_left
    intro v _
    simp [fdiv, hm']
  · rw [sumSquares_map_div, ← hsq]
    exact mul_inv_cancel₀ (mul_ne_zero hm' hm')

/-- C3 (witness): a stream drawing `3/4` everywhere gives raw components
`1/2`; at 4 dimensions the raw sum of squares is `1`, so `m = 1` is its
exact positive square root and the normalized sum of squares is `1`. -/
theorem c3_unit_norm_witness :
    (0 : ℚ) < 1 ∧
    (1 : ℚ) * 1 = sumSquares (rawEmbedding (fun _ _ => 3 / 4) (stringSeed "") 4) ∧
    sumSquares ((rawEmbedding (fun _ _ => 3 / 4) (stringSeed "") 4).map
      (fun v => v / 1)) = 1 := by
  have hsq : (1 : ℚ) * 1 =
      sumSquares (rawEmbedding (fun _ _ => 3 / 4) (stringSeed "") 4) := by
    norm_num [rawEmbedding, sumSquares, List.range_succ]
  exact ⟨one_pos, hsq,
    (c3_unit_norm (fun _ _ => 3 / 4) "" 4 1 one_pos hsq).2.2⟩

/-- C5: model-validation trichotomy for both handlers.  A non-empty model
present in the configured list for the request kind yields HTTP 200; a
non-empty absent model yields HTTP 400 with the structured error body
(`code = "model_not_found"`, `type = "invalid_request_error"`,
`param = "model"`, message carrying the offending name); an empty model
never yields a 400. -/
theorem c5_model_validation (cfg : Config) (rid : String) (now : Int)
    (creq : ChatRequest) (ereq : EmbeddingRequest) (stream : Int → Nat → ℚ) :
    (creq.model ≠ "" → creq.model ∈ cfg.models.chat →
      ∃ resp, handleChatCompletions cfg rid now creq = HandlerReply.ok 200 resp) ∧
    (creq.model ≠ "" → creq.model ∉ cfg.models.chat →
      handleChatCompletions cfg rid now creq =
        HandlerReply.error 400 (modelNotFoundError creq.model) ∧
      (modelNotFoundError creq.model).code = "model_not_found" ∧
      (modelNotFoundError creq.model).etype = "invalid_request_error" ∧
      (modelNotFoundError creq.model).param = "model" ∧
      (modelNotFoundError creq.model).message =
        "The model \x27" ++ creq.model ++ "\x27 does not exist") ∧
    (creq.model = "" →
      ∃ resp, handleChatCompletions cfg rid now creq = HandlerReply.ok 200 resp) ∧
    (ereq.model ≠ "" → ereq.model ∈ cfg.models.embedding →
      ∃ resp, handleEmbeddings stream cfg ereq = HandlerReply.ok 200 resp) ∧
    (ereq.model ≠ "" → ereq.model ∉ cfg.models.embedding →
      handleEmbeddings stream cfg ereq =
        HandlerReply.error 400 (modelNotFoundError ereq.model)) ∧
    (ereq.model = "" →
      ∃ resp, handleEmbeddings stream cfg ereq = HandlerReply.ok 200 resp) := by
  refine ⟨?_, ?_, ?_, ?_, ?_, ?_⟩
  · intro _ hmem
    exact ⟨_, by unfold handleChatCompletions; rw [if_neg (by simp [hmem])]⟩
  · intro hne hmem
    refine ⟨?_, rfl, rfl, rfl, rfl⟩
    unfold handleChatCompletions
    rw [if_pos ⟨hmem, hne⟩]
  · intro hemp
    exact ⟨_, by unfold handleChatCompletions; rw [if_neg (by simp [hemp])]⟩
  · intro _ hmem
    exact ⟨_, by unfold handleEmbeddings; rw [if_neg (by simp [hmem])]⟩
  · intro hne hmem
    unfold handleEmbeddings
    rw [if_pos ⟨hmem, hne⟩]
  · intro hemp
    exact ⟨_, by unfold handleEmbeddings; rw [if_neg (by simp [hemp])]⟩

/-- C5 (witness): the trichotomy discharged at the default configuration
for concrete supported, unsupported and empty model names, for both
handlers. -/
theorem c5_model_validation_witness :
    (∃ resp, handleChatCompletions defaultConfig "id0" 0
      { model := "gpt-4", messages := none } = HandlerReply.ok 200 resp) ∧
    (handleChatCompletions defaultConfig "id0" 0
      { model := "gpt-5", messages := none } =
        HandlerReply.error 400 (modelNotFoundError "gpt-5")) ∧
    (∃ resp, handleChatCompletions defaultConfig "id0" 0
      { model := "", messages := none } = HandlerReply.ok 200 resp) ∧
    (∃ resp, handleEmbeddings halfStream defaultConfig
      { model := "text-embedding-ada-002", input := none } =
        HandlerReply.ok 200 resp) ∧
    (handleEmbeddings halfStream defaultConfig
      { model := "no-such-model", input := none } =
        HandlerReply.error 400 (modelNotFoundError "no-such-model")) ∧
    (∃ resp, handleEmbeddings halfStream defaultConfig
      { model := "", input := none } = HandlerReply.ok 200 resp) := by
  refine ⟨?_, ?_, ?_, ?_, ?_, ?_⟩
  · exact (c5_model_validation defaultConfig "id0" 0
      { model := "gpt-4", messages := none }
      { model := "", input := none } halfStream).1 (by decide) (by decide)
  · exact ((c5_model_validation defaultConfig "id0" 0
      { model := "gpt-5", messages := none }
      { model := "", input := none } halfStream).2.1 (by decide) (by decide)).1
  · exact (c5_model_validation defaultConfig "id0" 0
      { model := "", messages := none }
      { model := "", input := none } halfStream).2.2.1 rfl
  · exact (c5_model_validation defaultConfig "id0" 0
      { model := "", messages := none }
      { model := "text-embedding-ada-002", input := none }
      halfStream).2.2.2.1 (by decide) (by decide)
  · exact (c5_model_validation defaultConfig "id0" 0
      { model := "", messages := none }
      { model := "no-such-model", input := none }
      halfStream).2.2.2.2.1 (by decide) (by decide)
  · exact (c5_model_validation defaultConfig "id0" 0
      { model := "", messages := none }
      { model := "", input := none } halfStream).2.2.2.2.2 rfl

/-- C6: in every successful chat completion, `promptTokens` is the token
estimate over the effective messages (the per-message sum of
`len(content)/4` with truncating integer division), `completionTokens` is
fixed at 20, and `totalTokens` is their sum; when the request carries no
messages, the single synthesized `{role:"user", content:"Hello"}` message
makes `promptTokens = 1`. -/
theorem c6_usage (cfg : Config) (rid : String) (now : Int) (req : ChatRequest)
    (resp : ChatCompletionResponse)
    (h : handleChatCompletions cfg rid now req = HandlerReply.ok 200 resp) :
    resp.usage.promptTokens = calculateTokens (effectiveMessages req) ∧
    calculateTokens (effectiveMessages req) =
      ((effectiveMessages req).map (fun msg => goStrLen msg.content / 4)).sum ∧
    resp.usage.completionTokens = 20 ∧
    resp.usage.totalTokens = resp.usage.promptTokens + 20 ∧
    (req.messages = none →
      effectiveMessages req = [{ role := "user", content := "Hello" }] ∧
      resp.usage.promptTokens = 1) := by
  have hsum : calculateTokens (effectiveMessages req) =
      ((effectiveMessages req).map (fun msg => goStrLen msg.content / 4)).sum := by
    unfold calculateTokens
    rw [foldl_add_sum (fun msg : ChatCompletionMessage => goStrLen msg.content / 4)
      (effectiveMessages req) 0, Nat.zero_add]
  unfold handleChatCompletions at h
  split at h
  · exact absurd h (by simp)
  · rw [HandlerReply.ok.injEq] at h
    rw [← h.2]
    refine ⟨rfl, hsum, rfl, rfl, ?_⟩
    intro hnone
    have heff : effectiveMessages req = [{ role := "user", content := "Hello" }] := by
      unfold effectiveMessages
      rw [hnone]
      rfl
    refine ⟨heff, ?_⟩
    show calculateTokens (effectiveMessages req) = 1
    rw [heff]
    decide

/-- C6 (witness): a request with nil messages against the default
configuration, whose successful response reports `promptTokens = 1`,
`completionTokens = 20` and `totalTokens = 21`. -/
theorem c6_usage_witness :
    ∃ resp, handleChatCompletions defaultConfig "id0" 0
        { model := "", messages := none } = HandlerReply.ok 200 resp ∧
      resp.usage.promptTokens = 1 ∧
      resp.usage.completionTokens = 20 ∧
      resp.usage.totalTokens = 21 := by
  refine ⟨_, rfl, ?_⟩
  have h := c6_usage defaultConfig "id0" 0 { model := "", messages := none } _ rfl
  refine ⟨(h.2.2.2.2 rfl).2, h.2.2.1, ?_⟩
  rw [h.2.2.2.1, (h.2.2.2.2 rfl).2]

set_option maxRecDepth 8192 in
/-- C7: the generator returns exactly `dims` values for every input
(including the empty string), and the embeddings handler calls it with
dimensionality 1536, so every entry of a successful response carries an
embedding of length 1536. -/
theorem c7_dims :
    (∀ (stream : Int → Nat → ℚ) (input : String) (dims : Nat),
      (generateMockEmbedding stream input dims).length = dims) ∧
    (∀ (stream : Int → Nat → ℚ) (cfg : Config) (req : EmbeddingRequest)
      (resp : EmbeddingResponse) (e : EmbeddingData),
      handleEmbeddings stream cfg req = HandlerReply.ok 200 resp →
      e ∈ resp.data → e.embedding.length = 1536) := by
  refine ⟨generateMockEmbedding_length, ?_⟩
  intro stream cfg req resp e h hmem
  unfold handleEmbeddings at h
  split at h
  · exact absurd h (by simp)
  · rw [HandlerReply.ok.injEq] at h
    rw [← h.2] at hmem
    simp only [embeddingsData, List.mem_map] at hmem
    obtain ⟨p, _, hpe⟩ := hmem
    rw [← hpe]
    show (generateMockEmbedding stream p.2 1536).length = 1536
    exact generateMockEmbedding_length stream p.2 1536

/-- C7 (witness): a concrete request whose single response entry has an
embedding of length 1536. -/
theorem c7_dims_witness :
    ∃ resp e, handleEmbeddings halfStream defaultConfig
        { model := "", input := some ["x"] } = HandlerReply.ok 200 resp ∧
      e ∈ resp.data ∧ e.embedding.length = 1536 := by
  have hmem : ({ object := "embedding"
                 embedding := generateMockEmbedding halfStream "x" 1536
                 index := 0 } : EmbeddingData) ∈
      embeddingsData halfStream
        (effectiveInputs { model := "", input := some ["x"] }) := by
    have hdata : embeddingsData halfStream
        (effectiveInputs { model := "", input := some ["x"] }) =
        [{ object := "embedding"
           embedding := generateMockEmbedding halfStream "x" 1536
           index := 0 }] := rfl
    rw [hdata]
    exact List.mem_singleton.mpr rfl
  exact ⟨_, _, rfl, hmem,
    c7_dims.2 halfStream defaultConfig
      { model := "", input := some ["x"] } _ _ rfl hmem⟩

/-- C8: resolution of the injected latency for nonnegative configured
minimum.  When `min = 0` the delay is `0` (no sleep); when `min ≠ 0` and
`max > min` the delay is `min + u' * (max - min)` for some `u'` in `[0,1)`;
otherwise — including a configured `max < min` — the delay is the fixed
`min`. -/
theorem c8_latency (min max : Int) (u : ℚ) (hmin : 0 ≤ min) (hu0 : 0 ≤ u)
    (hu1 : u < 1) :
    (min = 0 → simulateLatency min max u = 0) ∧
    (min ≠ 0 → max > min →
      ∃ u' : ℚ, 0 ≤ u' ∧ u' < 1 ∧
        ((simulateLatency min max u : Int) : ℚ) =
          (min : ℚ) + u' * ((max : ℚ) - (min : ℚ))) ∧
    (min ≠ 0 → ¬ max > min → simulateLatency min max u = min) := by
  refine ⟨?_, ?_, ?_⟩
  · intro h0
    subst h0
    simp [simulateLatency]
  · intro hne hgt
    have hpos : 0 < min := lt_of_le_of_ne hmin (Ne.symm hne)
    have hdpos : (0 : ℚ) < ((max - min : Int) : ℚ) := by
      have : (0 : Int) < max - min := by omega
      exact_mod_cast this
    set prod := ((max - min : Int) : ℚ) * u with hprod
    have hprod0 : 0 ≤ prod := mul_nonneg (le_of_lt hdpos) hu0
    have hfl0 : (0 : Int) ≤ ⌊prod⌋ := Int.floor_nonneg.mpr hprod0
    have hflle : ((⌊prod⌋ : Int) : ℚ) ≤ prod := Int.floor_le prod
    have hprodlt : prod < ((max - min : Int) : ℚ) := by
      calc prod < ((max - min : Int) : ℚ) * 1 := by
            exact mul_lt_mul_of_pos_left hu1 hdpos
        _ = ((max - min : Int) : ℚ) := mul_one _
    refine ⟨((⌊prod⌋ : Int) : ℚ) / ((max - min : Int) : ℚ), ?_, ?_, ?_⟩
    · exact div_nonneg (by exact_mod_cast hfl0) (le_of_lt hdpos)
    · rw [div_lt_one hdpos]
      exact lt_of_le_of_lt hflle hprodlt
    · have hval : simulateLatency min max u = min + ⌊prod⌋ := by
        unfold simulateLatency
        rw [if_pos hpos, if_pos hgt]
      rw [hval]
      have hcancel : ((⌊prod⌋ : Int) : ℚ) / ((max - min : Int) : ℚ) *
          ((max : ℚ) - (min : ℚ)) = ((⌊prod⌋ : Int) : ℚ) := by
        have hsub : ((max - min : Int) : ℚ) = (max : ℚ) - (min : ℚ) := by
          push_cast
          ring
        rw [← hsub]
        exact div_mul_cancel₀ _ (ne_of_gt hdpos)
      rw [hcancel]
      push_cast
      ring
  · intro hne hngt
    have hpos : 0 < min := lt_of_le_of_ne hmin (Ne.symm hne)
    unfold simulateLatency
    rw [if_pos hpos, if_neg hngt]

/-- C8 (witness): the three branches at concrete bounds and draw `1/3`:
zero minimum gives no delay, `min = 2ns, max = 5ns` gives `2 + u'·3` for
some `u'` in `[0,1)`, and equal bounds give the fixed delay. -/
theorem c8_latency_witness :
    simulateLatency 0 5 (1 / 3) = 0 ∧
    (∃ u' : ℚ, 0 ≤ u' ∧ u' < 1 ∧
      ((simulateLatency 2 5 (1 / 3) : Int) : ℚ) =
        ((2 : Int) : ℚ) + u' * (((5 : Int) : ℚ) - ((2 : Int) : ℚ))) ∧
    simulateLatency 3 3 (1 / 3) = 3 := by
  refine ⟨?_, ?_, ?_⟩
  · exact (c8_latency 0 5 (1 / 3) (by norm_num) (by norm_num) (by norm_num)).1 rfl
  · exact (c8_latency 2 5 (1 / 3) (by norm_num) (by norm_num) (by norm_num)).2.1
      (by norm_num) (by norm_num)
  · exact (c8_latency 3 3 (1 / 3) (by norm_num) (by norm_num) (by norm_num)).2.2
      (by norm_num) (by norm_num)

/-- C10: default substitution triggers only on a nil slice, not on an
explicitly empty list.  A chat request with `messages = []` keeps zero
effective messages (`promptTokens = 0`, no synthesized "Hello"), and an
embeddings request with `input = []` yields an empty `data` list and zero
usage (no synthesized "Default input text"). -/
theorem c10_explicit_empty (stream : Int → Nat → ℚ) (cfg : Config)
    (rid : String) (now : Int) (m : String) :
    effectiveMessages { model := m, messages := some [] } = [] ∧
    (∀ resp, handleChatCompletions cfg rid now { model := m, messages := some [] } =
        HandlerReply.ok 200 resp →
      resp.usage.promptTokens = 0 ∧ resp.usage.totalTokens = 20) ∧
    effectiveInputs { model := m, input := some [] } = [] ∧
    (∀ resp, handleEmbeddings stream cfg { model := m, input := some [] } =
        HandlerReply.ok 200 resp →
      resp.data = [] ∧ resp.usage.promptTokens = 0 ∧
        resp.usage.totalTokens = 0) := by
  refine ⟨rfl, ?_, rfl, ?_⟩
  · intro resp h
    unfold handleChatCompletions at h
    split at h
    · exact absurd h (by simp)
    · rw [HandlerReply.ok.injEq] at h
      rw [← h.2]
      exact ⟨rfl, rfl⟩
  · intro resp h
    unfold handleEmbeddings at h
    split at h
    · exact absurd h (by simp)
    · rw [HandlerReply.ok.injEq] at h
      rw [← h.2]
      exact ⟨rfl, rfl, rfl⟩

/-- C10 (witness): the empty-list behaviour at the default configuration
with an empty model string. -/
theorem c10_explicit_empty_witness :
    (∃ resp, handleChatCompletions defaultConfig "id0" 0
        { model := "", messages := some [] } = HandlerReply.ok 200 resp ∧
      resp.usage.promptTokens = 0 ∧ resp.usage.totalTokens = 20) ∧
    (∃ resp, handleEmbeddings halfStream defaultConfig
        { model := "", input := some [] } = HandlerReply.ok 200 resp ∧
      resp.data = [] ∧ resp.usage.promptTokens = 0 ∧
        resp.usage.totalTokens = 0) := by
  constructor
  · refine ⟨_, rfl, ?_⟩
    exact (c10_explicit_empty halfStream defaultConfig "id0" 0 "").2.1 _ rfl
  · refine ⟨_, rfl, ?_⟩
    exact (c10_explicit_empty halfStream defaultConfig "id0" 0 "").2.2.2 _ rfl
